import Mathlib

/-!
# Verification of the rempower DNS reconciliation engine

A shallow embedding, in Lean 4, of the DNS subcommand of the `rempower`
repository (`src/subcommands/dns.rs`, with the CLI argument record from
`src/cli.rs`).  Pure text parsing is embedded as Lean functions on `String`
(implemented over `List Char` so that every definition evaluates inside the
kernel); the effectful driver (`apply_dns_config`, `perform`,
`print_current_dns`) is embedded as a function of an explicit collaborator
record (`Host`) that returns, alongside the `Except` result, the trace of
host interactions performed, so that properties such as "the fallback query
is never consulted" become statements about the trace.
-/

namespace Rempower

/-! ## String model

Helpers modelling the Rust standard-library string operations the source
uses: `str::lines`, `str::trim`, `str::contains`, `str::split_once` and
`str::starts_with`.  They are written by structural recursion on `List Char`
so that concrete instances reduce by `decide`. -/

/-- Split a character list at every occurrence of `sep` (the fragments do not
contain `sep`; `n` separators yield `n + 1` fragments). -/
def splitChar (sep : Char) : List Char → List (List Char)
  | [] => [[]]
  | x :: xs =>
    match splitChar sep xs with
    | [] => [[]]
    | y :: ys => if x = sep then [] :: y :: ys else (x :: y) :: ys

/-- Model of Rust `str::contains(pat)`: `pat` occurs contiguously in the
text.  Tested by scanning every suffix for `pat` at its head. -/
def containsSub (pat : List Char) : List Char → Bool
  | [] => pat.isEmpty
  | c :: cs => pat.isPrefixOf (c :: cs) || containsSub pat cs

/-- Model of Rust `str::trim`: drop whitespace from both ends. -/
def trimChar (cs : List Char) : List Char :=
  ((cs.dropWhile Char.isWhitespace).reverse.dropWhile Char.isWhitespace).reverse

/-- Model of Rust `str::split_once(sep)` for a single-character separator:
the fragments strictly before and strictly after the first occurrence of
`sep`, or `none` when `sep` does not occur. -/
def splitOnceChar (sep : Char) : List Char → Option (List Char × List Char)
  | [] => none
  | c :: cs =>
    if c = sep then some ([], cs)
    else (splitOnceChar sep cs).map (fun p => (c :: p.1, p.2))

/-- `str::trim` lifted to `String`. -/
def rustTrim (s : String) : String :=
  String.mk (trimChar s.toList)

/-- `str::contains` lifted to `String`. -/
def hasSubstr (s pat : String) : Bool :=
  containsSub pat.toList s.toList

/-- Model of Rust `str::lines`: split on `'\n'`, drop the final empty
fragment produced by a trailing newline (or by the empty string), and strip
one trailing `'\r'` from each line. -/
def rustLines (s : String) : List String :=
  let parts := splitChar '\n' s.toList
  let parts := match parts.getLast? with
    | some [] => parts.dropLast
    | _ => parts
  parts.map (fun l =>
    String.mk (match l.getLast? with
      | some '\r' => l.dropLast
      | _ => l))

/-! ## Constants and pure parsers (from `src/subcommands/dns.rs`) -/

/-- `PUBLIC_DNS`: the fixed public DNS server list (dns.rs line 25). -/
def PUBLIC_DNS : List String :=
  ["1.1.1.1", "2606:4700:4700::1111", "8.8.4.4", "2001:4860:4860::8844"]

/-- The line filter of `active_networks` (dns.rs line 83): a line is dropped
when it contains `"An asterisk"` or `"(*)"`. -/
def inactiveMarker (line : String) : Bool :=
  hasSubstr line "An asterisk" || hasSubstr line "(*)"

/-- The parsing pipeline of `active_networks` (dns.rs lines 80-85): trim the
whole stdout, split into lines, drop marker lines, trim each survivor. -/
def activeNetworksParse (output_str : String) : List String :=
  ((rustLines (rustTrim output_str)).filter (fun line => !inactiveMarker line)).map
    rustTrim

/-- Modelled from the spec (§4.1, §8 and claim C2 wording): interface-list
parsing without the whole-output trim — split the raw input into lines, drop
marker lines, trim each survivor.  Stated for comparison with
`activeNetworksParse`, the pipeline the source actually implements. -/
def specInterfaceParse (input : String) : List String :=
  ((rustLines input).filter (fun line => !inactiveMarker line)).map rustTrim

/-- The parsing pipeline of `manual_dns_of_network` (dns.rs lines 231-234):
split stdout into lines and trim each (no whole-output trim). -/
def manualDnsParse (stdout : String) : List String :=
  (rustLines stdout).map rustTrim

/-- The "none configured" test of `current_dns_servers` (dns.rs lines
258-261), which is also the `validate` closure of `enable_dhcp_dns` (dns.rs
lines 128-132): some line contains the sentinel phrase. -/
def isNoneConfigured (dns_result : List String) : Bool :=
  dns_result.any (fun dns => hasSubstr dns "There aren't any DNS Servers set on")

/-- The `validate` closure of `enable_pub_dns` (dns.rs lines 102-106): every
address of `PUBLIC_DNS` occurs in the resolved list. -/
def pubValidate (current_dns : List String) : Bool :=
  PUBLIC_DNS.all (fun public_dns => current_dns.any (fun dns => dns == public_dns))

/-- Modelled from the spec (§4.5): the `PublicDns` success predicate as the
spec words it — "at least one address from the fixed public list appears in
the resolved manual list".  Stated for comparison with `pubValidate`, the
predicate the source actually uses. -/
def specPubSuccess (current_dns : List String) : Bool :=
  PUBLIC_DNS.any (fun public_dns => current_dns.any (fun dns => dns == public_dns))

/-- The body of the `for` loop of `extract_dns_from_scutil` (dns.rs lines
293-302), with the accumulator made explicit: a line whose trimmed form
starts with `"nameserver["` and that contains a colon contributes the
trimmed text after the first colon, appended only if not already present. -/
def extractLoop : List String → List String → List String
  | [], acc => acc
  | line :: rest, acc =>
    if "nameserver[".toList.isPrefixOf (trimChar line.toList) then
      match splitOnceChar ':' line.toList with
      | some (_, ip_part) =>
        let ip := String.mk (trimChar ip_part)
        extractLoop rest (if acc.contains ip then acc else acc ++ [ip])
      | none => extractLoop rest acc
    else extractLoop rest acc

/-- `extract_dns_from_scutil` (dns.rs lines 290-305). -/
def extract_dns_from_scutil (scutil_output : String) : List String :=
  extractLoop (rustLines scutil_output) []

/-- The address contributed by a single line of `scutil --dns` output, when
the line qualifies (trimmed form starts with `"nameserver["` and a colon is
present); `none` otherwise.  Mirrors one iteration of
`extract_dns_from_scutil` without the deduplication. -/
def lineAddress (line : String) : Option String :=
  if "nameserver[".toList.isPrefixOf (trimChar line.toList) then
    (splitOnceChar ':' line.toList).map (fun p => String.mk (trimChar p.2))
  else none

/-- The stream of addresses of the qualifying nameserver lines of a
`scutil --dns` output, in order, with multiplicity (no deduplication). -/
def scutilAddresses (scutil_output : String) : List String :=
  (rustLines scutil_output).filterMap lineAddress

/-- Order-preserving first-occurrence deduplication: the subsequence of first
occurrences (the behaviour `extract_dns_from_scutil` implements with its
`contains` check). -/
def firstOccDedup : List String → List String
  | [] => []
  | a :: l => a :: firstOccDedup (l.filter (fun x => !(x == a)))
termination_by l => l.length
decreasing_by
  simp only [List.length_cons]
  exact Nat.lt_succ_of_le (List.length_filter_le _ _)

/-- `current_dns_servers` (dns.rs lines 254-273) as a pure function of the
manual query result and the `scutil --dns` stdout. -/
def current_dns_servers (dns_result : List String) (scutil_str : String) :
    List String :=
  if isNoneConfigured dns_result then
    let dns_servers := extract_dns_from_scutil scutil_str
    if dns_servers.isEmpty then dns_result else dns_servers
  else dns_result

/-- Source tag of a resolved DNS state (spec §3 `ResolvedDnsState`). -/
inductive DnsSource
  | Manual
  | SystemFallback
deriving DecidableEq

/-- `current_dns_servers` instrumented with the spec's source tag and a flag
recording whether the `scutil --dns` branch was entered; the control flow is
exactly that of dns.rs lines 254-273. -/
def currentDnsServersTagged (dns_result : List String) (scutil_str : String) :
    List String × DnsSource × Bool :=
  if isNoneConfigured dns_result then
    let dns_servers := extract_dns_from_scutil scutil_str
    if dns_servers.isEmpty then (dns_result, DnsSource.Manual, true)
    else (dns_servers, DnsSource.SystemFallback, true)
  else (dns_result, DnsSource.Manual, false)

/-! ## The effectful driver

The driver functions of dns.rs run external commands and print.  They are
embedded as functions of a collaborator record `Host` holding the outcome of
each external command (`Except` failure covers both "could not execute" and
"output not decodable", which the source folds into the same `?`-propagated
error; for the set command it also covers a non-success exit status, which
`update_dns_servers` turns into an `Err`).  Each driver function returns its
`Except` result paired with the ordered trace of host interactions and
emitted per-interface reports, so that claims about which collaborators are
consulted and what is reported become statements about the trace. -/

/-- Outcomes of the external commands, as seen at the boundary the source
reads them (dns.rs lines 78, 195-205, 226-231, 262-263). -/
structure Host where
  /-- stdout of `networksetup -listallnetworkservices`, or failure. -/
  listOutput : Except String String
  /-- outcome of `sudo networksetup -setdnsservers <network> <servers>`:
  `update_dns_servers` returns `Err` when the command cannot run or exits
  unsuccessfully (dns.rs lines 202-205). -/
  setDns : String → List String → Except String Unit
  /-- stdout of `networksetup -getdnsservers <network>`, or failure. -/
  getDnsOutput : String → Except String String
  /-- stdout of `scutil --dns`, or failure. -/
  scutil : Except String String

/-- One host interaction or emitted report of the driver. -/
inductive DriverEvent
  /-- `active_networks` ran `networksetup -listallnetworkservices`. -/
  | listServices
  /-- `update_dns_servers` ran `sudo networksetup -setdnsservers`. -/
  | setDnsCall (network : String) (servers : List String)
  /-- `manual_dns_of_network` ran `networksetup -getdnsservers`. -/
  | getDnsCall (network : String)
  /-- `current_dns_servers` ran `scutil --dns`. -/
  | scutilCall
  /-- `apply_dns_config` printed the per-interface verdict: green `" OK"`
  when `ok`, else the red warning from the mode's `error_msg` closure
  (dns.rs lines 171-175). -/
  | applyReport (network : String) (ok : Bool)
  /-- `print_current_dns` printed an interface and its resolved servers
  (dns.rs line 63). -/
  | listReport (network : String) (servers : List String)
deriving DecidableEq

/-- `active_networks` (dns.rs lines 77-88) against a `Host`. -/
def active_networks (host : Host) : Except String (List String) :=
  host.listOutput.map activeNetworksParse

/-- `manual_dns_of_network` (dns.rs lines 225-236) against a `Host`. -/
def manual_dns_of_network (host : Host) (network : String) :
    Except String (List String) :=
  (host.getDnsOutput network).map manualDnsParse

/-- The `for` loop of `apply_dns_config` (dns.rs lines 164-176): for each
interface, set the servers (propagating failure), query the manual state
(propagating failure), report the verdict of `validate`, continue. -/
def applyLoop (host : Host) (dns_servers : List String)
    (validate : List String → Bool) :
    List String → Except String Unit × List DriverEvent
  | [] => (Except.ok (), [])
  | network :: rest =>
    match host.setDns network dns_servers with
    | Except.error e => (Except.error e, [DriverEvent.setDnsCall network dns_servers])
    | Except.ok () =>
      match manual_dns_of_network host network with
      | Except.error e =>
        (Except.error e,
          [DriverEvent.setDnsCall network dns_servers, DriverEvent.getDnsCall network])
      | Except.ok current_dns =>
        let next := applyLoop host dns_servers validate rest
        (next.1,
          DriverEvent.setDnsCall network dns_servers ::
            DriverEvent.getDnsCall network ::
              DriverEvent.applyReport network (validate current_dns) :: next.2)

/-- `apply_dns_config` (dns.rs lines 151-179): enumerate active interfaces
(propagating failure), then run the per-interface loop. -/
def apply_dns_config (host : Host) (dns_servers : List String)
    (validate : List String → Bool) : Except String Unit × List DriverEvent :=
  match active_networks host with
  | Except.error e => (Except.error e, [DriverEvent.listServices])
  | Except.ok networks =>
    let r := applyLoop host dns_servers validate networks
    (r.1, DriverEvent.listServices :: r.2)

/-- `enable_pub_dns` (dns.rs lines 98-114). -/
def enable_pub_dns (host : Host) : Except String Unit × List DriverEvent :=
  apply_dns_config host PUBLIC_DNS pubValidate

/-- `enable_dhcp_dns` (dns.rs lines 124-135). -/
def enable_dhcp_dns (host : Host) : Except String Unit × List DriverEvent :=
  apply_dns_config host ["empty"] isNoneConfigured

/-- `current_dns_servers` (dns.rs lines 254-273) against a `Host`, with its
trace: the manual query always runs; `scutil --dns` runs only in the
sentinel branch. -/
def currentDnsServersRun (host : Host) (network : String) :
    Except String (List String) × List DriverEvent :=
  match manual_dns_of_network host network with
  | Except.error e => (Except.error e, [DriverEvent.getDnsCall network])
  | Except.ok dns_result =>
    if isNoneConfigured dns_result then
      match host.scutil with
      | Except.error e =>
        (Except.error e, [DriverEvent.getDnsCall network, DriverEvent.scutilCall])
      | Except.ok scutil_str =>
        let dns_servers := extract_dns_from_scutil scutil_str
        (Except.ok (if dns_servers.isEmpty then dns_result else dns_servers),
          [DriverEvent.getDnsCall network, DriverEvent.scutilCall])
    else (Except.ok dns_result, [DriverEvent.getDnsCall network])

/-- The `for` loop of `print_current_dns` (dns.rs lines 61-64). -/
def listLoop (host : Host) : List String → Except String Unit × List DriverEvent
  | [] => (Except.ok (), [])
  | network :: rest =>
    match currentDnsServersRun host network with
    | (Except.error e, evs) => (Except.error e, evs)
    | (Except.ok servers, evs) =>
      let next := listLoop host rest
      (next.1, evs ++ DriverEvent.listReport network servers :: next.2)

/-- `print_current_dns` (dns.rs lines 58-67). -/
def print_current_dns (host : Host) : Except String Unit × List DriverEvent :=
  match active_networks host with
  | Except.error e => (Except.error e, [DriverEvent.listServices])
  | Except.ok networks =>
    let r := listLoop host networks
    (r.1, DriverEvent.listServices :: r.2)

/-- `DnsArgs` (cli.rs lines 52-66): the three mode flags. -/
structure DnsArgs where
  pub_dns : Bool
  dhcp : Bool
  list : Bool

/-- `perform` (dns.rs lines 41-51): dispatch on the flags, `dhcp` first,
then `pub_dns`, then `list`; `Ok` when no flag is set. -/
def perform (host : Host) (args : DnsArgs) :
    Except String Unit × List DriverEvent :=
  if args.dhcp then enable_dhcp_dns host
  else if args.pub_dns then enable_pub_dns host
  else if args.list then print_current_dns host
  else (Except.ok (), [])

/-- The operation `perform` dispatches to. -/
inductive DnsOp
  | dhcpOp
  | pubOp
  | listOp
deriving DecidableEq

/-- The operation selected by `perform`'s `if`/`else if` chain, by priority
`dhcp`, then `pub_dns`, then `list`. -/
def chosenOp (args : DnsArgs) : Option DnsOp :=
  if args.dhcp then some DnsOp.dhcpOp
  else if args.pub_dns then some DnsOp.pubOp
  else if args.list then some DnsOp.listOp
  else none

/-! ## Stateful collaborator model for the idempotence claim

Claim C9 and spec §8 stipulate a collaborator "that deterministically
reflects prior writes": the get-DNS query returns a deterministic function
`reflect` of the most recent set-DNS write.  `applyLoopStateful` is the
`apply_dns_config` loop (dns.rs lines 164-176) run against that collaborator
model, with `store` holding each interface's most recent write; set and get
never fail there, so no `Except` is needed. -/

/-- The `apply_dns_config` loop against the stateful collaborator of claim
C9: per interface, record the write, read back `reflect` of the most recent
write, and report the `validate` verdict.  Returns the final store and the
per-interface verdicts in order. -/
def applyLoopStateful (reflect : List String → List String)
    (dns_servers : List String) (validate : List String → Bool) :
    List String → (String → List String) →
      ((String → List String) × List (String × Bool))
  | [], store => (store, [])
  | network :: rest, store =>
    let store' := fun m => if m = network then dns_servers else store m
    let current_dns := reflect (store' network)
    let next := applyLoopStateful reflect dns_servers validate rest store'
    (next.1, (network, validate current_dns) :: next.2)

/-! ## Concrete collaborators for instantiations -/

/-- A collaborator where every command succeeds with empty output. -/
def hostTrivial : Host :=
  { listOutput := Except.ok ""
    setDns := fun _ _ => Except.ok ()
    getDnsOutput := fun _ => Except.ok ""
    scutil := Except.ok "" }

/-- A collaborator whose get-DNS query reports all four public servers. -/
def hostFullPub : Host :=
  { listOutput := Except.ok "Wi-Fi"
    setDns := fun _ _ => Except.ok ()
    getDnsOutput := fun _ =>
      Except.ok "1.1.1.1\n2606:4700:4700::1111\n8.8.4.4\n2001:4860:4860::8844"
    scutil := Except.ok "" }

/-- A collaborator whose get-DNS query reports only one public server. -/
def hostPartialPub : Host :=
  { listOutput := Except.ok "Wi-Fi"
    setDns := fun _ _ => Except.ok ()
    getDnsOutput := fun _ => Except.ok "1.1.1.1"
    scutil := Except.ok "" }

/-- A collaborator whose set-DNS command fails for `"Wi-Fi"`. -/
def hostSetFail : Host :=
  { listOutput := Except.ok "Wi-Fi\nEthernet"
    setDns := fun n _ =>
      if n = "Wi-Fi" then Except.error "permission denied" else Except.ok ()
    getDnsOutput := fun _ => Except.ok "1.1.1.1"
    scutil := Except.ok "" }

/-- A collaborator whose get-DNS query fails the public predicate on
`"Wi-Fi"` and satisfies it on `"Ethernet"`. -/
def hostMismatch : Host :=
  { listOutput := Except.ok "Wi-Fi\nEthernet"
    setDns := fun _ _ => Except.ok ()
    getDnsOutput := fun n =>
      if n = "Wi-Fi" then Except.ok "9.9.9.9"
      else Except.ok "1.1.1.1\n2606:4700:4700::1111\n8.8.4.4\n2001:4860:4860::8844"
    scutil := Except.ok "" }

/-- A collaborator whose get-DNS query reports the "none configured"
sentinel. -/
def hostDhcp : Host :=
  { listOutput := Except.ok "Wi-Fi"
    setDns := fun _ _ => Except.ok ()
    getDnsOutput := fun _ => Except.ok "There aren't any DNS Servers set on Wi-Fi."
    scutil := Except.ok "nameserver[0] : 192.168.1.1" }

end Rempower

namespace Rempower

theorem fod_mem : ∀ {l : List String} {x : String}, x ∈ firstOccDedup l ↔ x ∈ l := by
  intro l
  induction l using firstOccDedup.induct with
  | case1 => intro x; simp [firstOccDedup]
  | case2 a l ih =>
    intro x
    rw [firstOccDedup]
    constructor
    · intro h
      rcases List.mem_cons.mp h with h | h
      · exact h ▸ List.mem_cons_self a _
      · exact List.mem_cons_of_mem a (List.mem_of_mem_filter (ih.mp h))
    · intro h
      rcases List.mem_cons.mp h with h | h
      · exact h ▸ List.mem_cons_self a _
      · by_cases hx : x = a
        · exact hx ▸ List.mem_cons_self a _
        · exact List.mem_cons_of_mem a (ih.mpr (List.mem_filter.mpr ⟨h, by simp [hx]⟩))

theorem fod_nodup : ∀ {l : List String}, (firstOccDedup l).Nodup := by
  intro l
  induction l using firstOccDedup.induct with
  | case1 => simp [firstOccDedup]
  | case2 a l ih =>
    rw [firstOccDedup]
    refine List.nodup_cons.mpr ⟨fun h => ?_, ih⟩
    have := List.of_mem_filter (fod_mem.mp h)
    simp at this

theorem fod_sublist : ∀ {l : List String}, List.Sublist (firstOccDedup l) l := by
  intro l
  induction l using firstOccDedup.induct with
  | case1 => simp [firstOccDedup]
  | case2 a l ih =>
    rw [firstOccDedup]
    exact List.Sublist.cons₂ a (ih.trans (List.filter_sublist l))

theorem indexOf_filter_lt {p : String → Bool} :
    ∀ {l : List String} {x y : String}, x ∈ l.filter p → y ∈ l.filter p →
      (l.filter p).indexOf x < (l.filter p).indexOf y →
      l.indexOf x < l.indexOf y := by
  intro l
  induction l with
  | nil => intro x y hx _ _; simp at hx
  | cons a t ih =>
    intro x y hx hy hlt
    by_cases ha : p a
    · rw [List.filter_cons_of_pos ha] at hx hy hlt
      by_cases hxa : x = a
      · subst hxa
        have hya : y ≠ x := by
          intro h
          subst h
          exact Nat.lt_irrefl _ hlt
        rw [List.indexOf_cons_self]
        rw [List.indexOf_cons_ne _ (fun h => hya h.symm)]
        exact Nat.succ_pos _
      · rw [List.indexOf_cons_ne _ (fun h => hxa h.symm)] at hlt
        by_cases hya : y = a
        · subst hya
          rw [List.indexOf_cons_self] at hlt
          exact absurd hlt (Nat.not_lt_zero _)
        · rw [List.indexOf_cons_ne _ (fun h => hya h.symm)] at hlt
          have hx' : x ∈ t.filter p := by
            rcases List.mem_cons.mp hx with h | h
            · exact absurd h hxa
            · exact h
          have hy' : y ∈ t.filter p := by
            rcases List.mem_cons.mp hy with h | h
            · exact absurd h hya
            · exact h
          have := ih hx' hy' (Nat.lt_of_succ_lt_succ hlt)
          rw [List.indexOf_cons_ne _ (fun h => hxa h.symm),
            List.indexOf_cons_ne _ (fun h => hya h.symm)]
          exact Nat.succ_lt_succ this
    · rw [List.filter_cons_of_neg ha] at hx hy hlt
      have hxa : x ≠ a := by
        intro h
        subst h
        exact ha (List.of_mem_filter hx)
      have hya : y ≠ a := by
        intro h
        subst h
        exact ha (List.of_mem_filter hy)
      rw [List.indexOf_cons_ne _ (fun h => hxa h.symm),
        List.indexOf_cons_ne _ (fun h => hya h.symm)]
      exact Nat.succ_lt_succ (ih hx hy hlt)

theorem fod_pairwise :
    ∀ {l : List String},
      (firstOccDedup l).Pairwise (fun a b => l.indexOf a < l.indexOf b) := by
  intro l
  induction l using firstOccDedup.induct with
  | case1 => simp [firstOccDedup]
  | case2 a l ih =>
    rw [firstOccDedup]
    refine List.pairwise_cons.mpr ⟨?_, ?_⟩
    · intro b hb
      have hbf := fod_mem.mp hb
      have hba : b ≠ a := by
        have := List.of_mem_filter hbf
        simpa using this
      rw [List.indexOf_cons_self, List.indexOf_cons_ne _ (fun h => hba h.symm)]
      exact Nat.succ_pos _
    · refine ih.imp_of_mem ?_
      intro x y hx hy hlt
      have hxf := fod_mem.mp hx
      have hyf := fod_mem.mp hy
      have hxa : x ≠ a := by have := List.of_mem_filter hxf; simpa using this
      have hya : y ≠ a := by have := List.of_mem_filter hyf; simpa using this
      have := indexOf_filter_lt hxf hyf hlt
      rw [List.indexOf_cons_ne _ (fun h => hxa h.symm),
        List.indexOf_cons_ne _ (fun h => hya h.symm)]
      exact Nat.succ_lt_succ this

theorem extractLoop_eq :
    ∀ (lines : List String) (acc : List String),
      extractLoop lines acc =
        acc ++ firstOccDedup
          ((lines.filterMap lineAddress).filter (fun x => !acc.contains x)) := by
  intro lines
  induction lines with
  | nil => intro acc; simp [extractLoop, firstOccDedup]
  | cons line rest ih =>
    intro acc
    by_cases h1 : "nameserver[".toList.isPrefixOf (trimChar line.toList)
    · cases h2 : splitOnceChar ':' line.toList with
      | none =>
        have hla : lineAddress line = none := by
          rw [lineAddress, if_pos h1, h2]
          rfl
        rw [extractLoop, if_pos h1, h2, ih, List.filterMap_cons_none hla]
      | some pr =>
        obtain ⟨before, ip_part⟩ := pr
        have hla : lineAddress line = some (String.mk (trimChar ip_part)) := by
          rw [lineAddress, if_pos h1, h2]
          rfl
        rw [List.filterMap_cons_some hla]
        by_cases h3 : acc.contains (String.mk (trimChar ip_part))
        · rw [extractLoop, if_pos h1, h2]
          simp only [h3, if_pos]
          rw [ih, List.filter_cons_of_neg (by simpa using h3)]
        · rw [extractLoop, if_pos h1, h2]
          simp only [Bool.not_eq_true] at h3
          simp only [h3, Bool.false_eq_true, if_false]
          rw [ih, List.filter_cons_of_pos (by simpa using h3)]
          rw [firstOccDedup, List.filter_filter]
          have hpred : ∀ x : String,
              (!(acc ++ [String.mk (trimChar ip_part)]).contains x) =
                ((!(x == String.mk (trimChar ip_part))) && (!acc.contains x)) := by
            intro x
            by_cases hx1 : x = String.mk (trimChar ip_part) <;>
              by_cases hx2 : x ∈ acc <;>
                simp [hx1, hx2]
          rw [List.filter_congr (fun x _ => hpred x)]
          simp
    · have hla : lineAddress line = none := by
        rw [lineAddress, if_neg h1]
      rw [extractLoop, if_neg h1, ih, List.filterMap_cons_none hla]

theorem extract_eq_fod :
    ∀ s : String, extract_dns_from_scutil s = firstOccDedup (scutilAddresses s) := by
  intro s
  rw [extract_dns_from_scutil, extractLoop_eq, scutilAddresses]
  simp

end Rempower

namespace Rempower

theorem applyLoop_ok (host : Host) (servers : List String)
    (validate : List String → Bool) (out : String → String) :
    ∀ networks : List String,
      (∀ m ∈ networks, host.setDns m servers = Except.ok ()) →
      (∀ m ∈ networks, host.getDnsOutput m = Except.ok (out m)) →
      applyLoop host servers validate networks =
        (Except.ok (),
          networks.flatMap (fun m =>
            [DriverEvent.setDnsCall m servers, DriverEvent.getDnsCall m,
             DriverEvent.applyReport m (validate (manualDnsParse (out m)))])) := by
  intro networks
  induction networks with
  | nil => intro _ _; simp [applyLoop]
  | cons n rest ih =>
    intro hset hget
    have hsn := hset n (List.mem_cons_self n rest)
    have hgn := hget n (List.mem_cons_self n rest)
    have hmanual : manual_dns_of_network host n = Except.ok (manualDnsParse (out n)) := by
      rw [manual_dns_of_network, hgn]
      rfl
    rw [applyLoop, hsn, hmanual,
      ih (fun m hm => hset m (List.mem_cons_of_mem n hm))
        (fun m hm => hget m (List.mem_cons_of_mem n hm))]
    simp

theorem applyLoop_abort (host : Host) (servers : List String)
    (validate : List String → Bool) (out : String → String) :
    ∀ (pre : List String) (n : String) (post : List String) (e : String),
      (∀ m ∈ pre, host.setDns m servers = Except.ok ()) →
      (∀ m ∈ pre, host.getDnsOutput m = Except.ok (out m)) →
      host.setDns n servers = Except.error e →
      applyLoop host servers validate (pre ++ n :: post) =
        (Except.error e,
          pre.flatMap (fun m =>
            [DriverEvent.setDnsCall m servers, DriverEvent.getDnsCall m,
             DriverEvent.applyReport m (validate (manualDnsParse (out m)))]) ++
          [DriverEvent.setDnsCall n servers]) := by
  intro pre
  induction pre with
  | nil =>
    intro n post e _ _ herr
    rw [List.nil_append, applyLoop, herr]
    simp
  | cons m rest ih =>
    intro n post e hset hget herr
    have hsm := hset m (List.mem_cons_self m rest)
    have hgm := hget m (List.mem_cons_self m rest)
    have hmanual : manual_dns_of_network host m = Except.ok (manualDnsParse (out m)) := by
      rw [manual_dns_of_network, hgm]
      rfl
    rw [List.cons_append, applyLoop, hsm, hmanual,
      ih n post e (fun x hx => hset x (List.mem_cons_of_mem m hx))
        (fun x hx => hget x (List.mem_cons_of_mem m hx)) herr]
    simp

theorem applyLoop_no_scutil (host : Host) (servers : List String)
    (validate : List String → Bool) :
    ∀ networks : List String,
      DriverEvent.scutilCall ∉ (applyLoop host servers validate networks).2 := by
  intro networks
  induction networks with
  | nil => simp [applyLoop]
  | cons n rest ih =>
    rw [applyLoop]
    cases hs : host.setDns n servers with
    | error e => simp
    | ok u =>
      cases u
      cases hm : manual_dns_of_network host n with
      | error e => simp
      | ok dns => simpa using ih

theorem applyLoop_scutil_irrelevant (host : Host) (sc : Except String String)
    (servers : List String) (validate : List String → Bool) :
    ∀ networks : List String,
      applyLoop { host with scutil := sc } servers validate networks =
        applyLoop host servers validate networks := by
  intro networks
  induction networks with
  | nil => rfl
  | cons n rest ih =>
    rw [applyLoop, applyLoop]
    cases hs : host.setDns n servers with
    | error e => rfl
    | ok u =>
      cases u
      have hms : manual_dns_of_network { host with scutil := sc } n =
          manual_dns_of_network host n := rfl
      rw [hms]
      cases hm : manual_dns_of_network host n with
      | error e => rfl
      | ok dns => rw [ih]

end Rempower

namespace Rempower

/-- Claim C2, as stated, fails at the input `" \nA"`: the whitespace-only
first line contains no marker, so the claim requires its trimmed form `""`
to appear in the output, but `active_networks` trims the whole stdout before
splitting, so the output is `["A"]`. -/
theorem C2_counterexample :
    activeNetworksParse " \nA" = ["A"] ∧
    specInterfaceParse " \nA" = ["", "A"] ∧
    activeNetworksParse " \nA" ≠ specInterfaceParse " \nA" := by
  refine ⟨by decide, by decide, by decide⟩

/-- Claim C2 (amended): interface-list parsing first trims the whole input
(so whitespace-only leading and trailing lines produce no entries); on the
trimmed input it drops exactly the lines containing the inactive marker, and
the remaining lines appear in the output trimmed, in the same relative
order. -/
theorem C2_trim_filter_order :
    ∀ input : String,
      activeNetworksParse input =
        ((rustLines (rustTrim input)).filter (fun l => !inactiveMarker l)).map
          rustTrim ∧
      List.Sublist (activeNetworksParse input)
        ((rustLines (rustTrim input)).map rustTrim) ∧
      (∀ s, s ∈ activeNetworksParse input ↔
        ∃ l, l ∈ rustLines (rustTrim input) ∧ inactiveMarker l = false ∧
          rustTrim l = s) ∧
      (∀ l, l ∈ rustLines (rustTrim input) → inactiveMarker l = false →
        rustTrim l ∈ activeNetworksParse input) := by
  intro input
  refine ⟨rfl, ?_, ?_, ?_⟩
  · exact (List.filter_sublist _).map rustTrim
  · intro s
    simp only [activeNetworksParse, List.mem_map, List.mem_filter,
      Bool.not_eq_true']
    constructor
    · rintro ⟨a, ⟨ha, hm⟩, rfl⟩
      exact ⟨a, ha, hm, rfl⟩
    · rintro ⟨l, hl, hm, rfl⟩
      exact ⟨l, ⟨hl, hm⟩, rfl⟩
  · intro l hl hm
    exact List.mem_map_of_mem _ (List.mem_filter.mpr ⟨hl, by simp [hm]⟩)

/-- Witness for C2: on a concrete listing, a surviving line's trimmed form
appears in the output. -/
theorem C2_witness :
    "Wi-Fi" ∈ activeNetworksParse
      "An asterisk (*) denotes that a network service is disabled.\nWi-Fi" := by
  exact (C2_trim_filter_order _).2.2.2 "Wi-Fi" (by decide) (by decide)

/-- Claim C3: resolver-state parsing returns a duplicate-free list; it is
exactly the subsequence of first occurrences of the address stream of the
qualifying nameserver lines, so each address's position is its position
among the first occurrences (the output is ordered by first occurrence);
and the duplicate example from the spec yields `["192.168.1.1"]`. -/
theorem C3_first_occurrence_dedup :
    (∀ s : String,
      extract_dns_from_scutil s = firstOccDedup (scutilAddresses s) ∧
      (extract_dns_from_scutil s).Nodup ∧
      List.Sublist (extract_dns_from_scutil s) (scutilAddresses s) ∧
      (∀ a, a ∈ extract_dns_from_scutil s ↔ a ∈ scutilAddresses s) ∧
      (extract_dns_from_scutil s).Pairwise
        (fun a b => (scutilAddresses s).indexOf a < (scutilAddresses s).indexOf b)) ∧
    extract_dns_from_scutil
        "nameserver[0] : 192.168.1.1\nnameserver[1] : 192.168.1.1" =
      ["192.168.1.1"] := by
  refine ⟨fun s => ?_, by decide⟩
  rw [extract_eq_fod]
  exact ⟨rfl, fod_nodup, fod_sublist, fun a => fod_mem, fod_pairwise⟩

/-- Claim C4: when the manual query yields a non-sentinel list, the two-tier
resolver returns exactly that list, its result does not depend on the
`scutil --dns` data, and the fallback branch is never entered (tag `Manual`,
consulted flag `false`, and the driver trace holds only the get call). -/
theorem C4_manual_wins :
    (∀ (dns_result : List String) (s s' : String),
      isNoneConfigured dns_result = false →
      current_dns_servers dns_result s = dns_result ∧
      current_dns_servers dns_result s = current_dns_servers dns_result s' ∧
      currentDnsServersTagged dns_result s =
        (dns_result, DnsSource.Manual, false)) ∧
    (∀ (host : Host) (network out : String),
      host.getDnsOutput network = Except.ok out →
      isNoneConfigured (manualDnsParse out) = false →
      currentDnsServersRun host network =
        (Except.ok (manualDnsParse out), [DriverEvent.getDnsCall network])) := by
  constructor
  · intro dns_result s s' h
    rw [current_dns_servers, current_dns_servers, currentDnsServersTagged]
    simp [h]
  · intro host network out hget h
    have hm : manual_dns_of_network host network =
        Except.ok (manualDnsParse out) := by
      rw [manual_dns_of_network, hget]
      rfl
    rw [currentDnsServersRun, hm]
    simp [h]

/-- Witness for C4: a non-sentinel manual result is returned unchanged, with
no fallback consultation. -/
theorem C4_witness :
    isNoneConfigured ["1.1.1.1"] = false ∧
    current_dns_servers ["1.1.1.1"] "nameserver[0] : 9.9.9.9" = ["1.1.1.1"] ∧
    currentDnsServersRun hostPartialPub "Wi-Fi" =
      (Except.ok ["1.1.1.1"], [DriverEvent.getDnsCall "Wi-Fi"]) := by
  refine ⟨by decide, ?_, ?_⟩
  · exact (C4_manual_wins.1 ["1.1.1.1"] "nameserver[0] : 9.9.9.9" "" (by decide)).1
  · exact C4_manual_wins.2 hostPartialPub "Wi-Fi" "1.1.1.1" rfl (by decide)

/-- Claim C5: on a sentinel manual result the resolver consults the
system-wide state; a non-empty parse is returned tagged `SystemFallback`, an
empty parse returns the original sentinel result tagged `Manual`, and in the
driver exactly one `scutil --dns` call is made (no further fallback). -/
theorem C5_fallback_resolution :
    (∀ (dns_result : List String) (s : String),
      isNoneConfigured dns_result = true →
      (currentDnsServersTagged dns_result s).2.2 = true ∧
      (extract_dns_from_scutil s ≠ [] →
        current_dns_servers dns_result s = extract_dns_from_scutil s ∧
        currentDnsServersTagged dns_result s =
          (extract_dns_from_scutil s, DnsSource.SystemFallback, true)) ∧
      (extract_dns_from_scutil s = [] →
        current_dns_servers dns_result s = dns_result ∧
        currentDnsServersTagged dns_result s =
          (dns_result, DnsSource.Manual, true))) ∧
    (∀ (host : Host) (network out sc : String),
      host.getDnsOutput network = Except.ok out →
      isNoneConfigured (manualDnsParse out) = true →
      host.scutil = Except.ok sc →
      currentDnsServersRun host network =
        (Except.ok
          (if (extract_dns_from_scutil sc).isEmpty then manualDnsParse out
           else extract_dns_from_scutil sc),
          [DriverEvent.getDnsCall network, DriverEvent.scutilCall])) := by
  constructor
  · intro dns_result s h
    rw [current_dns_servers, currentDnsServersTagged]
    by_cases he : extract_dns_from_scutil s = [] <;> simp [h, he]
  · intro host network out sc hget h hsc
    have hm : manual_dns_of_network host network =
        Except.ok (manualDnsParse out) := by
      rw [manual_dns_of_network, hget]
      rfl
    rw [currentDnsServersRun, hm]
    simp [h, hsc]

/-- Witness for C5: a sentinel manual result with a non-empty resolver state
yields the parsed fallback list. -/
theorem C5_witness :
    isNoneConfigured ["There aren't any DNS Servers set on Wi-Fi."] = true ∧
    current_dns_servers ["There aren't any DNS Servers set on Wi-Fi."]
        "nameserver[0] : 192.168.1.1" = ["192.168.1.1"] ∧
    currentDnsServersRun hostDhcp "Wi-Fi" =
      (Except.ok ["192.168.1.1"],
        [DriverEvent.getDnsCall "Wi-Fi", DriverEvent.scutilCall]) := by
  refine ⟨by decide, ?_, ?_⟩
  · exact ((C5_fallback_resolution.1 _ "nameserver[0] : 192.168.1.1"
      (by decide)).2.1 (by decide)).1
  · exact C5_fallback_resolution.2 hostDhcp "Wi-Fi"
      "There aren't any DNS Servers set on Wi-Fi."
      "nameserver[0] : 192.168.1.1" rfl (by decide) rfl

end Rempower

namespace Rempower

/-- Claim C1, as stated, fails on the code: the spec's "at least one public
address" predicate accepts the resolved list `["1.1.1.1"]`, but
`enable_pub_dns`'s `validate` closure requires every `PUBLIC_DNS` address
and rejects it, so the driver reports the interface as not OK. -/
theorem C1_counterexample :
    specPubSuccess ["1.1.1.1"] = true ∧
    pubValidate ["1.1.1.1"] = false ∧
    applyLoop hostPartialPub PUBLIC_DNS pubValidate ["Wi-Fi"] =
      (Except.ok (),
        [DriverEvent.setDnsCall "Wi-Fi" PUBLIC_DNS,
         DriverEvent.getDnsCall "Wi-Fi",
         DriverEvent.applyReport "Wi-Fi" false]) := by
  refine ⟨by decide, by decide, ?_⟩
  rfl

/-- Claim C1 (amended): in apply mode with `PublicDns`, the per-interface
success predicate holds exactly when every address of the fixed public list
appears in the manual DNS list resolved after the set operation, and the
driver reports OK exactly on that predicate's verdict. -/
theorem C1_all_addresses_required :
    (∀ current_dns : List String,
      pubValidate current_dns = true ↔
        ∀ p ∈ PUBLIC_DNS, ∃ d ∈ current_dns, d = p) ∧
    (∀ (host : Host) (n out : String),
      host.setDns n PUBLIC_DNS = Except.ok () →
      host.getDnsOutput n = Except.ok out →
      applyLoop host PUBLIC_DNS pubValidate [n] =
        (Except.ok (),
          [DriverEvent.setDnsCall n PUBLIC_DNS, DriverEvent.getDnsCall n,
           DriverEvent.applyReport n (pubValidate (manualDnsParse out))])) := by
  constructor
  · intro current_dns
    simp [pubValidate, List.all_eq_true, List.any_eq_true]
  · intro host n out hset hget
    have h := applyLoop_ok host PUBLIC_DNS pubValidate (fun _ => out) [n]
      (by simpa using hset) (by simpa using hget)
    simpa using h

/-- Witness for C1: a resolved list holding all four public addresses
satisfies the predicate and the driver reports OK. -/
theorem C1_witness :
    pubValidate PUBLIC_DNS = true ∧
    applyLoop hostFullPub PUBLIC_DNS pubValidate ["Wi-Fi"] =
      (Except.ok (),
        [DriverEvent.setDnsCall "Wi-Fi" PUBLIC_DNS,
         DriverEvent.getDnsCall "Wi-Fi",
         DriverEvent.applyReport "Wi-Fi" true]) := by
  constructor
  · exact (C1_all_addresses_required.1 PUBLIC_DNS).mpr (by decide)
  · exact C1_all_addresses_required.2 hostFullPub "Wi-Fi"
      "1.1.1.1\n2606:4700:4700::1111\n8.8.4.4\n2001:4860:4860::8844" rfl rfl

/-- Claim C6: in apply mode, a failing set command aborts the run with that
error: interfaces before the failure are fully processed, the failing
interface is set but never queried or reported, interfaces after it appear
nowhere in the trace, and the error propagates through `perform` (so the
process exits non-zero). -/
theorem C6_abort_on_set_failure :
    (∀ (host : Host) (servers : List String) (validate : List String → Bool)
        (out : String → String) (pre post : List String) (n e : String),
      (∀ m ∈ pre, host.setDns m servers = Except.ok ()) →
      (∀ m ∈ pre, host.getDnsOutput m = Except.ok (out m)) →
      host.setDns n servers = Except.error e →
      applyLoop host servers validate (pre ++ n :: post) =
        (Except.error e,
          pre.flatMap (fun m =>
            [DriverEvent.setDnsCall m servers, DriverEvent.getDnsCall m,
             DriverEvent.applyReport m (validate (manualDnsParse (out m)))]) ++
          [DriverEvent.setDnsCall n servers])) ∧
    (∀ host : Host,
      perform host ⟨true, false, false⟩ = enable_pub_dns host ∧
      perform host ⟨false, true, false⟩ = enable_dhcp_dns host) :=
  ⟨fun host servers validate out pre post n e hs hg he =>
    applyLoop_abort host servers validate out pre n post e hs hg he,
    fun _ => ⟨rfl, rfl⟩⟩

/-- Witness for C6: with the set command failing on the first of two
interfaces, the run stops with the error after that single set call. -/
theorem C6_witness :
    applyLoop hostSetFail PUBLIC_DNS pubValidate ["Wi-Fi", "Ethernet"] =
      (Except.error "permission denied",
        [DriverEvent.setDnsCall "Wi-Fi" PUBLIC_DNS]) ∧
    perform hostSetFail ⟨true, false, false⟩ = enable_pub_dns hostSetFail := by
  constructor
  · have h := C6_abort_on_set_failure.1 hostSetFail PUBLIC_DNS pubValidate
      (fun _ => "") [] ["Ethernet"] "Wi-Fi" "permission denied"
      (by simp) (by simp) rfl
    simpa using h
  · exact (C6_abort_on_set_failure.2 hostSetFail).1

/-- Claim C7: a predicate mismatch is not a hard error: when all set and get
commands succeed, every interface is processed in order, each gets a report
(the false reports are the inline warnings), and the driver returns `Ok`
regardless of the verdicts, leaving the exit code unaffected. -/
theorem C7_mismatch_is_warning :
    (∀ (host : Host) (servers : List String) (validate : List String → Bool)
        (out : String → String) (networks : List String),
      (∀ m ∈ networks, host.setDns m servers = Except.ok ()) →
      (∀ m ∈ networks, host.getDnsOutput m = Except.ok (out m)) →
      applyLoop host servers validate networks =
        (Except.ok (),
          networks.flatMap (fun m =>
            [DriverEvent.setDnsCall m servers, DriverEvent.getDnsCall m,
             DriverEvent.applyReport m (validate (manualDnsParse (out m)))]))) ∧
    (∀ (host : Host) (servers : List String) (validate : List String → Bool)
        (out : String → String) (listOut : String),
      host.listOutput = Except.ok listOut →
      (∀ m ∈ activeNetworksParse listOut, host.setDns m servers = Except.ok ()) →
      (∀ m ∈ activeNetworksParse listOut,
        host.getDnsOutput m = Except.ok (out m)) →
      (apply_dns_config host servers validate).1 = Except.ok ()) := by
  constructor
  · exact fun host servers validate out networks hs hg =>
      applyLoop_ok host servers validate out networks hs hg
  · intro host servers validate out listOut hlist hset hget
    have hl : active_networks host =
        Except.ok (activeNetworksParse listOut) := by
      rw [active_networks, hlist]
      rfl
    rw [apply_dns_config, hl]
    show (applyLoop host servers validate (activeNetworksParse listOut)).1 =
      Except.ok ()
    rw [applyLoop_ok host servers validate out _ hset hget]

/-- Witness for C7: the first of two interfaces fails the public predicate
and is reported with a warning, the second is still processed and reported
OK, and the run returns `Ok`. -/
theorem C7_witness :
    applyLoop hostMismatch PUBLIC_DNS pubValidate ["Wi-Fi", "Ethernet"] =
      (Except.ok (),
        [DriverEvent.setDnsCall "Wi-Fi" PUBLIC_DNS,
         DriverEvent.getDnsCall "Wi-Fi",
         DriverEvent.applyReport "Wi-Fi" false,
         DriverEvent.setDnsCall "Ethernet" PUBLIC_DNS,
         DriverEvent.getDnsCall "Ethernet",
         DriverEvent.applyReport "Ethernet" true]) ∧
    (apply_dns_config hostMismatch PUBLIC_DNS pubValidate).1 = Except.ok () := by
  constructor
  · have h := C7_mismatch_is_warning.1 hostMismatch PUBLIC_DNS pubValidate
      (fun m => if m = "Wi-Fi" then "9.9.9.9"
        else "1.1.1.1\n2606:4700:4700::1111\n8.8.4.4\n2001:4860:4860::8844")
      ["Wi-Fi", "Ethernet"] (fun m _ => rfl)
      (fun m _ => by by_cases hm : m = "Wi-Fi" <;> simp [hostMismatch, hm])
    simpa using h
  · exact C7_mismatch_is_warning.2 hostMismatch PUBLIC_DNS pubValidate
      (fun m => if m = "Wi-Fi" then "9.9.9.9"
        else "1.1.1.1\n2606:4700:4700::1111\n8.8.4.4\n2001:4860:4860::8844")
      "Wi-Fi\nEthernet" rfl (fun m _ => rfl)
      (fun m _ => by by_cases hm : m = "Wi-Fi" <;> simp [hostMismatch, hm])

/-- Claim C8: in apply mode with `ClearToDhcp`, success is evaluated on the
manual-tier resolution only — the loop's result ignores the `scutil` data
and its trace never holds a `scutil --dns` call — and the predicate holds
exactly when some line of the resolved manual result contains the "none
configured" sentinel phrase. -/
theorem C8_dhcp_manual_tier :
    (∀ dns_result : List String,
      isNoneConfigured dns_result = true ↔
        ∃ d ∈ dns_result,
          hasSubstr d "There aren't any DNS Servers set on" = true) ∧
    (∀ (host : Host) (sc : Except String String) (servers : List String)
        (validate : List String → Bool) (networks : List String),
      applyLoop { host with scutil := sc } servers validate networks =
        applyLoop host servers validate networks) ∧
    (∀ (host : Host) (servers : List String) (validate : List String → Bool)
        (networks : List String),
      DriverEvent.scutilCall ∉ (applyLoop host servers validate networks).2) ∧
    (∀ host : Host,
      enable_dhcp_dns host = apply_dns_config host ["empty"] isNoneConfigured) ∧
    (∀ (host : Host) (n out : String),
      host.setDns n ["empty"] = Except.ok () →
      host.getDnsOutput n = Except.ok out →
      applyLoop host ["empty"] isNoneConfigured [n] =
        (Except.ok (),
          [DriverEvent.setDnsCall n ["empty"], DriverEvent.getDnsCall n,
           DriverEvent.applyReport n (isNoneConfigured (manualDnsParse out))])) := by
  refine ⟨?_, ?_, ?_, fun _ => rfl, ?_⟩
  · intro dns_result
    simp [isNoneConfigured, List.any_eq_true]
  · exact fun host sc servers validate networks =>
      applyLoop_scutil_irrelevant host sc servers validate networks
  · exact fun host servers validate networks =>
      applyLoop_no_scutil host servers validate networks
  · intro host n out hset hget
    have h := applyLoop_ok host ["empty"] isNoneConfigured (fun _ => out) [n]
      (by simpa using hset) (by simpa using hget)
    simpa using h

/-- Witness for C8: a get-query result containing the sentinel phrase for
`"Wi-Fi"` reports success in `ClearToDhcp` mode. -/
theorem C8_witness :
    isNoneConfigured ["There aren't any DNS Servers set on Wi-Fi."] = true ∧
    applyLoop hostDhcp ["empty"] isNoneConfigured ["Wi-Fi"] =
      (Except.ok (),
        [DriverEvent.setDnsCall "Wi-Fi" ["empty"],
         DriverEvent.getDnsCall "Wi-Fi",
         DriverEvent.applyReport "Wi-Fi" true]) := by
  constructor
  · exact (C8_dhcp_manual_tier.1 _).mpr
      ⟨"There aren't any DNS Servers set on Wi-Fi.", by decide, by decide⟩
  · exact C8_dhcp_manual_tier.2.2.2.2 hostDhcp "Wi-Fi"
      "There aren't any DNS Servers set on Wi-Fi." rfl rfl

/-- Claim C9: against a collaborator whose get-DNS query deterministically
reflects the most recent set-DNS write, applying `PublicDns` twice in
succession to the same interface yields the same per-interface verdict on
both attempts. -/
theorem C9_idempotent_verdict :
    ∀ (reflect : List String → List String) (store0 : String → List String)
      (network : String),
      (applyLoopStateful reflect PUBLIC_DNS pubValidate [network]
          ((applyLoopStateful reflect PUBLIC_DNS pubValidate [network] store0).1)).2 =
        (applyLoopStateful reflect PUBLIC_DNS pubValidate [network] store0).2 := by
  intro reflect store0 network
  simp [applyLoopStateful]

/-- Claim C10: `perform` runs at most one operation per call, dispatching by
the fixed priority `dhcp`, then `pub_dns`, then `list`, and with all three
flags false it returns `Ok` with no host interaction. -/
theorem C10_dispatch_priority :
    (∀ (host : Host) (args : DnsArgs),
      perform host args =
        (match chosenOp args with
          | some DnsOp.dhcpOp => enable_dhcp_dns host
          | some DnsOp.pubOp => enable_pub_dns host
          | some DnsOp.listOp => print_current_dns host
          | none => (Except.ok (), []))) ∧
    (∀ args : DnsArgs, args.dhcp = true → chosenOp args = some DnsOp.dhcpOp) ∧
    (∀ args : DnsArgs, args.dhcp = false → args.pub_dns = true →
      chosenOp args = some DnsOp.pubOp) ∧
    (∀ args : DnsArgs, args.dhcp = false → args.pub_dns = false →
      args.list = true → chosenOp args = some DnsOp.listOp) ∧
    (∀ host : Host, perform host ⟨false, false, false⟩ = (Except.ok (), [])) := by
  refine ⟨?_, ?_, ?_, ?_, fun _ => rfl⟩
  · intro host args
    obtain ⟨p, d, l⟩ := args
    cases d <;> cases p <;> cases l <;> rfl
  · intro args h
    simp [chosenOp, h]
  · intro args h1 h2
    simp [chosenOp, h1, h2]
  · intro args h1 h2 h3
    simp [chosenOp, h1, h2, h3]

/-- Witness for C10: with no flag set, `perform` does nothing and succeeds;
with only `dhcp` set, the dhcp operation is chosen. -/
theorem C10_witness :
    perform hostTrivial ⟨false, false, false⟩ = (Except.ok (), []) ∧
    chosenOp ⟨false, true, false⟩ = some DnsOp.dhcpOp :=
  ⟨C10_dispatch_priority.2.2.2.2 hostTrivial,
    C10_dispatch_priority.2.1 ⟨false, true, false⟩ rfl⟩

end Rempower
